import Mathlib

/-!
Shallow embedding of the InSAR ArcMap add-in (src/Install/InSAR_addin.py,
src/Install/common/utils.py, src/Install/common/avevel.py).

The program is Python 2 code run inside ArcMap.  External collaborators
(arcpy, pythonaddins, the map document) are modelled by an environment
record `Env` that supplies the data they would return, and by an effect
log (`Effect`) recording the calls the code makes into them.  A function
returning a value of type `PyM a` yields the list of effects it performed
together with either a normal return value or a propagating Python
exception.
-/

namespace InSAR

/-- Opaque token for an arcpy spatial reference. -/
structure SpatialReference where
  id : Nat
deriving DecidableEq

/-- Opaque token for a map layer (the SqueeSAR layer in the table of contents). -/
structure Layer where
  id : Nat
deriving DecidableEq

/-- Opaque token for the current map document (`ap.mapping.MapDocument("CURRENT")`). -/
structure MapDocument where
  id : Nat
deriving DecidableEq

/-- An arcpy `Extent`: the axis-aligned rectangle drawn by the user.
Coordinates are modelled as rationals. -/
structure Extent where
  XMin : ℚ
  YMin : ℚ
  XMax : ℚ
  YMax : ℚ
deriving DecidableEq

/-- Width of an extent (`extent.width`). -/
def Extent.width (e : Extent) : ℚ := e.XMax - e.XMin

/-- Height of an extent (`extent.height`). -/
def Extent.height (e : Extent) : ℚ := e.YMax - e.YMin

/-- Lower-left corner (`extent.lowerLeft`). -/
def Extent.lowerLeft (e : Extent) : ℚ × ℚ := (e.XMin, e.YMin)

/-- Lower-right corner (`extent.lowerRight`). -/
def Extent.lowerRight (e : Extent) : ℚ × ℚ := (e.XMax, e.YMin)

/-- Upper-right corner (`extent.upperRight`). -/
def Extent.upperRight (e : Extent) : ℚ × ℚ := (e.XMax, e.YMax)

/-- Upper-left corner (`extent.upperLeft`). -/
def Extent.upperLeft (e : Extent) : ℚ × ℚ := (e.XMin, e.YMax)

/-- Extent `a` contains extent `b`. -/
def Extent.contains (a b : Extent) : Prop :=
  a.XMin ≤ b.XMin ∧ b.XMax ≤ a.XMax ∧ a.YMin ≤ b.YMin ∧ b.YMax ≤ a.YMax

instance (a b : Extent) : Decidable (Extent.contains a b) := by
  unfold Extent.contains; infer_instance

/-- Extent `a` is strictly larger than extent `b`: it contains `b` and differs
from it (a search neighborhood extended by a positive margin). -/
def Extent.strictlyLarger (a b : Extent) : Prop :=
  Extent.contains a b ∧ a ≠ b

instance (a b : Extent) : Decidable (Extent.strictlyLarger a b) := by
  unfold Extent.strictlyLarger; infer_instance

/-- The closed 5-point ring built from an extent in `selectSqueeSARData`
(utils.py lines 84-89: lowerLeft, lowerRight, upperRight, upperLeft,
lowerLeft). -/
def extentRing (e : Extent) : List (ℚ × ℚ) :=
  [e.lowerLeft, e.lowerRight, e.upperRight, e.upperLeft, e.lowerLeft]

/-- An arcpy polygon: a ring of coordinates plus a spatial reference
(`ap.Polygon(area, spatref)`). -/
structure Polygon where
  ring : List (ℚ × ℚ)
  spatref : SpatialReference
deriving DecidableEq

/-- Calls the add-in makes into its collaborators (arcpy, pythonaddins,
the map), recorded in order. -/
inductive Effect where
  /-- `pythonaddins.MessageBox(text, title, 0)`. -/
  | messageBox (text title : String)
  /-- `ap.SelectLayerByLocation_management(layer, "WITHIN", poly, 0.0, "NEW_SELECTION")`. -/
  | selectByLocation (layer : Layer) (relation : String) (poly : Polygon)
      (distance : ℚ) (selectionType : String)
  /-- Python `print` of a status string. -/
  | printed (s : String)
  /-- Assignment `ap.env.outputCoordinateSystem = spatref`. -/
  | setOutputCoordinateSystem (sr : SpatialReference)
  /-- `ap.NumPyArrayToRaster(res, lowerLeft, x_cell_size, y_cell_size)` followed by
  `raster.save(name)`.  Per the arcpy signature, `xCellSize` is the cell width
  and `yCellSize` the cell height. -/
  | saveRaster (name : String) (lowerLeft : ℚ × ℚ) (xCellSize yCellSize : ℚ)
  /-- `ap.mapping.AddLayer(df, add_layer, "TOP")` of the layer named `name`,
  with the transparency that was set on it (none when unsupported). -/
  | addLayerToMap (name : String) (position : String) (transparency : Option Nat)
  /-- `ap.SelectLayerByAttribute_management(layer, "CLEAR_SELECTION")`. -/
  | clearSelection (layer : Layer)
deriving DecidableEq

/-- A propagating Python exception. -/
inductive PyExc where
  /-- `raise UserWarning(msg)`. -/
  | userWarning (msg : String)
  /-- The error numpy raises when a structured array is indexed with a field
  name that does not exist (`sel_data[u"VEL"]` with no VEL field). -/
  | numpyFieldError (fieldName : String)
deriving DecidableEq

/-- Result of running a piece of the add-in: the effects it performed, and
either a normal return value or a propagating exception. -/
def PyM (α : Type) : Type := List Effect × Except PyExc α

/-- Sequencing: run `m`; if it returned normally, feed its value to `f`;
a propagating exception skips `f`.  Effects accumulate in order. -/
def pyBind {α β : Type} (m : PyM α) (f : α → PyM β) : PyM β :=
  match m with
  | (eff, Except.error e) => (eff, Except.error e)
  | (eff, Except.ok a) =>
    match f a with
    | (eff2, r) => (eff ++ eff2, r)

/-- Python 2 exception matching for an `except "literal":` clause, as written
in `onRectangle` (`except "Invalid layer!":`, `except "No features!":`).
A non-class handler expression matches only a raised legacy string exception
that is the very same object; every exception this codebase raises is a
`UserWarning` instance (or a numpy error), which a string handler never
matches.  Hence the match is always `false`. -/
def stringHandlerMatches (handler : String) (exc : PyExc) : Bool :=
  match handler, exc with
  | _, _ => false

/-- The pattern `try: x = body  except "handler": return` followed by the rest
of the function.  If the body raises and the handler matches, the except body
runs `return` (normal exit); if the handler does not match, the exception
keeps propagating; otherwise the rest of the function runs on the bound
value. -/
def tryAssignOrReturn {α : Type} (body : PyM α) (handler : String)
    (rest : α → PyM Unit) : PyM Unit :=
  match body with
  | (eff, Except.error e) =>
    if stringHandlerMatches handler e then (eff, Except.ok ())
    else (eff, Except.error e)
  | (eff, Except.ok a) =>
    match rest a with
    | (eff2, r) => (eff ++ eff2, r)

/-- Data supplied by the external collaborators during one tool invocation. -/
structure Env where
  /-- Result of `pythonaddins.GetSelectedTOCLayerOrDataFrame()`: the layer
  selected in the table of contents, if any. -/
  tocLayer : Option Layer
  /-- `ap.Describe(layer).spatialReference` of the SqueeSAR layer. -/
  spatref : SpatialReference
  /-- The number of features the host reports selected after
  `SelectLayerByLocation_management`; `GetCount_management` renders it as a
  decimal string. -/
  count : Nat
  /-- `[f.name for f in ap.ListFields(layer)]`. -/
  fields : List String
  /-- The `u"VEL"` column of `ap.da.FeatureClassToNumPyArray(layer, fld_names)`
  (meaningful when `"VEL"` is among the fields). -/
  velData : List ℚ
  /-- The numpy array returned by `subres.evaluate` (see `subresEvaluate`). -/
  resGrid : List (List ℚ)
  /-- Whether `add_layer.supports("TRANSPARENCY")` holds. -/
  supportsTransparency : Bool

/-- Rendering of a rational in a formatted message; the exact numeric
formatting of the host strings is abstracted as `toString`. -/
def fmtQ (q : ℚ) : String := toString q

/-- Rendering of the average velocity (`"{:.2f}".format(ave_vel)`), numeric
formatting abstracted; `none` stands for the NaN numpy returns on an empty
array. -/
def fmtAve (v : Option ℚ) : String :=
  match v with
  | some q => toString q
  | none => "nan"

/-- Embedding of `common.utils.verifySqueeSAR` (utils.py lines 21-57): select
the current map document, get the TOC layer; if none is selected, pop a
warning box and raise `UserWarning("Invalid layer!")`; otherwise return the
layer and the map document. -/
def verifySqueeSAR (env : Env) : PyM (Layer × MapDocument) :=
  match env.tocLayer with
  | none =>
    ([Effect.messageBox
        ("Select the SqueeSAR layer from the table of content\n" ++
         "then select an area to evaluate the residual") "Warning"],
     Except.error (PyExc.userWarning "Invalid layer!"))
  | some layer => ([], Except.ok (layer, ⟨0⟩))

/-- Embedding of `common.utils.selectSqueeSARData` (utils.py lines 60-109):
build the extent ring polygon, select features within it, read the selected
count as the decimal string `GetCount` produces; when the string is `"0"`,
pop a warning box and raise `UserWarning("No features!")`; otherwise print a
status line and return `(int(float(nfeat)), spatref)`.  For the decimal
integer strings `GetCount` produces, `int(float(str(count)))` is the count
itself, so the returned number is modelled as `env.count`. -/
def selectSqueeSARData (env : Env) (extent : Extent) (layer : Layer) :
    PyM (Nat × SpatialReference) :=
  let poly : Polygon := ⟨extentRing extent, env.spatref⟩
  let selEff := Effect.selectByLocation layer "WITHIN" poly 0 "NEW_SELECTION"
  let nfeat := Nat.repr env.count
  if nfeat = "0" then
    ([selEff,
      Effect.messageBox "No features were available within the selection boundaries"
        "Warning"],
     Except.error (PyExc.userWarning "No features!"))
  else
    ([selEff,
      Effect.printed
        (nfeat ++ " feature(s) selected within:\n" ++
         "Lat: " ++ fmtQ extent.YMin ++ " to " ++ fmtQ extent.YMax ++ "\n" ++
         "Lon: " ++ fmtQ extent.XMin ++ " to " ++ fmtQ extent.XMax ++ "\n")],
     Except.ok (env.count, env.spatref))

/-- Embedding of `numpy.average` over a 1-D array; the NaN produced on an
empty array is modelled as `none`. -/
def npAverage (xs : List ℚ) : Option ℚ :=
  if xs.isEmpty then none else some (xs.sum / (xs.length : ℚ))

/-- Embedding of `common.avevel.evaluate` (avevel.py lines 28-54): list the
field names, fetch the structured array, and if `u"VEL"` is not among the
field names pop an error box; then compute `np.average(sel_data[u"VEL"])`,
which raises a numpy field error when the VEL field does not exist, and
return the average. -/
def avevelEvaluate (env : Env) (layer : Layer) : PyM (Option ℚ) :=
  let fld_names := env.fields
  if "VEL" ∈ fld_names then
    ([], Except.ok (npAverage env.velData))
  else
    ([Effect.messageBox "Could not find the field VEL in the data." "Error"],
     Except.error (PyExc.numpyFieldError "VEL"))

/-- Modelled from the spec: `common.subres.evaluate` is imported by
InSAR_addin.py but `src/Install/common/subres.py` is not part of the
available source.  Per spec sections 3 and 4.3 it produces a rows-by-cols
residual grid covering the extent, dense, at a caller-chosen resolution; the
grid values and shape are therefore supplied by the environment. -/
def subresEvaluate (env : Env) (extent : Extent) (layer : Layer) :
    List (List ℚ) := env.resGrid

/-- Embedding of `numpy.shape` on a 2-D array: (number of rows, number of
columns). -/
def npShape (g : List (List ℚ)) : Nat × Nat :=
  (g.length, (g.headD []).length)

/-- Tool state set up by the `__init__` methods run at ArcMap start. -/
structure ToolState where
  enabled : Bool
  shape : String
  cursor : Nat
  /-- `ap.env.addOutputsToMap`. -/
  addOutputsToMap : Bool
  /-- `ap.env.overwriteOutput`. -/
  overwriteOutput : Bool
deriving DecidableEq

namespace AverageDisplacementVelocity

/-- Embedding of `AverageDisplacementVelocity.__init__` (InSAR_addin.py
lines 151-166). -/
def init : ToolState :=
  { enabled := true
    shape := "Rectangle"
    cursor := 3
    addOutputsToMap := false
    overwriteOutput := true }

/-- Embedding of `AverageDisplacementVelocity.onRectangle` (InSAR_addin.py
lines 178-221): verify the layer, select the data within the drawn
rectangle, evaluate the average velocity, pop the info box, and clear the
selection. -/
def onRectangle (env : Env) (rectangle_geometry : Extent) : PyM Unit :=
  tryAssignOrReturn (verifySqueeSAR env) "Invalid layer!" (fun sarMd =>
    let sar := sarMd.1
    tryAssignOrReturn (selectSqueeSARData env rectangle_geometry sar)
      "No features!" (fun nfeatSpatref =>
      let nfeat := nfeatSpatref.1
      pyBind (avevelEvaluate env sar) (fun ave_vel =>
        let text :=
          Nat.repr nfeat ++ " feature(s) selected within:\n" ++
          "Lat: " ++ fmtQ rectangle_geometry.YMin ++ " to " ++
            fmtQ rectangle_geometry.YMax ++ "\n" ++
          "Lon: " ++ fmtQ rectangle_geometry.XMin ++ " to " ++
            fmtQ rectangle_geometry.XMax ++ "\n\n" ++
          "Average velocity: " ++ fmtAve ave_vel ++ " mm/year"
        ([Effect.messageBox text "Info",
          Effect.clearSelection sar], Except.ok ()))))

end AverageDisplacementVelocity

namespace SubsidenceResidual

/-- Embedding of `SubsidenceResidual.__init__` (InSAR_addin.py
lines 239-254). -/
def init : ToolState :=
  { enabled := true
    shape := "Rectangle"
    cursor := 3
    addOutputsToMap := false
    overwriteOutput := true }

/-- The extent actually used for the residual-tool selection
(InSAR_addin.py line 297): `extent = rectangle_geometry`, the drawn
rectangle unchanged.  The preceding comment in the source is a TODO saying
the selection should be extended by extra sigma margin, which is not
implemented. -/
def searchExtent (rectangle_geometry : Extent) : Extent := rectangle_geometry

/-- Embedding of `SubsidenceResidual.onRectangle` (InSAR_addin.py
lines 266-340): verify the layer, select the data within the (unextended)
extent, require at least 3 features, evaluate the residual grid, compute the
cell sizes from `np.shape(res)` as `x_cell_size = extent.width / x_len` and
`y_cell_size = extent.height / y_len` where `(x_len, y_len) = np.shape(res)`,
set the output coordinate system, save the raster as "subsidence", add it as
a layer on top (transparency 25 when supported), and clear the selection. -/
def onRectangle (env : Env) (rectangle_geometry : Extent) : PyM Unit :=
  tryAssignOrReturn (verifySqueeSAR env) "Invalid layer!" (fun sarMd =>
    let sar := sarMd.1
    let extent := searchExtent rectangle_geometry
    tryAssignOrReturn (selectSqueeSARData env extent sar) "No features!"
      (fun nfeatSpatref =>
      let nfeat := nfeatSpatref.1
      let spatref := nfeatSpatref.2
      if nfeat < 3 then
        ([Effect.messageBox "At least 3 features required within the selection boundaries"
            "Warning"], Except.ok ())
      else
        let res := subresEvaluate env extent sar
        let shape := npShape res
        let x_len := shape.1
        let y_len := shape.2
        let x_cell_size := extent.width / (x_len : ℚ)
        let y_cell_size := extent.height / (y_len : ℚ)
        ([Effect.setOutputCoordinateSystem spatref,
          Effect.saveRaster "subsidence" extent.lowerLeft x_cell_size y_cell_size,
          Effect.addLayerToMap "subsidence" "TOP"
            (if env.supportsTransparency then some 25 else none),
          Effect.clearSelection sar], Except.ok ())))

end SubsidenceResidual

end InSAR

/-!
Theorems.  The helper lemmas on `Nat.toDigitsCore` support reasoning about
the decimal string `GetCount_management` produces against the literal
comparison `nfeat == "0"` in `selectSqueeSARData`.
-/

open InSAR

/-- The accumulator of `Nat.toDigitsCore` is a suffix of its result, so the
result is never shorter than the accumulator. -/
theorem toDigitsCore_length_le (b f : Nat) :
    ∀ (n : Nat) (ds : List Char), ds.length ≤ (Nat.toDigitsCore b f n ds).length := by
  induction f with
  | zero => intro n ds; simp [Nat.toDigitsCore]
  | succ f ih =>
    intro n ds
    rw [Nat.toDigitsCore]
    split
    · simp
    · exact le_trans (by simp) (ih (n / b) (Nat.digitChar (n % b) :: ds))

/-- The decimal rendering of a natural number is the string "0" exactly for
zero: this is what makes the `nfeat == "0"` comparison in
`selectSqueeSARData` a test for an empty selection. -/
theorem repr_eq_zero_iff (n : Nat) : Nat.repr n = "0" ↔ n = 0 := by
  constructor
  · intro h
    have hd : Nat.toDigits 10 n = ['0'] := by
      have h2 := congrArg String.data h
      simpa [Nat.repr, List.asString] using h2
    unfold Nat.toDigits at hd
    rw [Nat.toDigitsCore] at hd
    split at hd
    · rename_i h0
      have hn10 : n < 10 := by omega
      by_contra hne
      have hn1 : 1 ≤ n := by omega
      interval_cases n <;> exact absurd hd (by decide)
    · rename_i h0
      have hn : 10 ≤ n := by
        rcases Nat.lt_or_ge n 10 with h10 | h10
        · exact absurd (Nat.div_eq_of_lt h10) h0
        · exact h10
      have hlen : 2 ≤ (Nat.toDigitsCore 10 n (n / 10) [Nat.digitChar (n % 10)]).length := by
        obtain ⟨f, hf⟩ : ∃ f, n = f + 1 := ⟨n - 1, by omega⟩
        rw [hf, Nat.toDigitsCore]
        split
        · simp
        · exact le_trans (by simp) (toDigitsCore_length_le 10 f _ _)
      rw [hd] at hlen
      simp at hlen
  · intro h; subst h; rfl

/-- Claim C1: the spec requires every error in the taxonomy to be recovered
at the invocation boundary, and in particular the `UserWarning` exceptions
raised by `verifySqueeSAR` and `selectSqueeSARData` to be caught inside
`onRectangle`.  The code violates this: the `except "Invalid layer!"` and
`except "No features!"` clauses are string handlers, which never match a
raised `UserWarning` instance in Python 2, so the warnings propagate
uncaught out of `onRectangle`; the numpy field error from the missing-VEL
path is not wrapped in any try at all.  This theorem evaluates the model at
the three failing inputs: no layer selected, a zero-match selection, and a
dataset without a VEL field. -/
theorem C1_taxonomy_errors_escape_onRectangle :
    (AverageDisplacementVelocity.onRectangle
        { tocLayer := none, spatref := ⟨7⟩, count := 5, fields := ["VEL"],
          velData := [1], resGrid := [[0]], supportsTransparency := true }
        ⟨0, 0, 8, 2⟩).2
      = Except.error (PyExc.userWarning "Invalid layer!") ∧
    (SubsidenceResidual.onRectangle
        { tocLayer := some ⟨1⟩, spatref := ⟨7⟩, count := 0, fields := ["VEL"],
          velData := [], resGrid := [[0]], supportsTransparency := true }
        ⟨0, 0, 8, 2⟩).2
      = Except.error (PyExc.userWarning "No features!") ∧
    (AverageDisplacementVelocity.onRectangle
        { tocLayer := some ⟨1⟩, spatref := ⟨7⟩, count := 5, fields := ["HEIGHT"],
          velData := [], resGrid := [[0]], supportsTransparency := true }
        ⟨0, 0, 8, 2⟩).2
      = Except.error (PyExc.numpyFieldError "VEL") := by
  refine ⟨rfl, rfl, rfl⟩

/-- With a layer selected in the table of contents, `verifySqueeSAR` returns
it silently. -/
theorem verifySqueeSAR_some (env : Env) (l : Layer) (hl : env.tocLayer = some l) :
    verifySqueeSAR env = ([], Except.ok (l, ⟨0⟩)) := by
  simp [verifySqueeSAR, hl]

/-- The decimal rendering of a nonzero count is not the string "0". -/
theorem repr_ne_zero (n : Nat) (h : n ≠ 0) : Nat.repr n ≠ "0" :=
  fun hc => h ((repr_eq_zero_iff n).mp hc)

/-- Shape of a successful `selectSqueeSARData` run: the location selection
effect, a printed status line, and the count with the spatial reference. -/
theorem selectSqueeSARData_pos (env : Env) (extent : Extent) (layer : Layer)
    (h : env.count ≠ 0) :
    ∃ s : String,
      selectSqueeSARData env extent layer =
        ([Effect.selectByLocation layer "WITHIN" ⟨extentRing extent, env.spatref⟩ 0
            "NEW_SELECTION",
          Effect.printed s],
         Except.ok (env.count, env.spatref)) := by
  refine ⟨Nat.repr env.count ++ " feature(s) selected within:\n" ++
    "Lat: " ++ fmtQ extent.YMin ++ " to " ++ fmtQ extent.YMax ++ "\n" ++
    "Lon: " ++ fmtQ extent.XMin ++ " to " ++ fmtQ extent.XMax ++ "\n", ?_⟩
  simp [selectSqueeSARData, repr_ne_zero _ h]

/-- Claim C2: the claim says the selection is cleared at the end of every
invocation that reaches the Selected state, including the zero-match and
fewer-than-3-scatterers exits.  Counterexample: a residual invocation with a
layer selected and exactly 2 matching scatterers reaches the Selected state
(its effect log holds the location-selection call), exits early with the
3-feature warning, and its effect log contains no clear-selection call. -/
theorem C2_counterexample_early_exit_keeps_selection :
    (SubsidenceResidual.onRectangle
        { tocLayer := some ⟨1⟩, spatref := ⟨7⟩, count := 2, fields := ["VEL"],
          velData := [1, 2], resGrid := [[0]], supportsTransparency := true }
        ⟨0, 0, 8, 2⟩).2 = Except.ok () ∧
    Effect.messageBox "At least 3 features required within the selection boundaries"
        "Warning"
      ∈ (SubsidenceResidual.onRectangle
        { tocLayer := some ⟨1⟩, spatref := ⟨7⟩, count := 2, fields := ["VEL"],
          velData := [1, 2], resGrid := [[0]], supportsTransparency := true }
        ⟨0, 0, 8, 2⟩).1 ∧
    Effect.clearSelection ⟨1⟩
      ∉ (SubsidenceResidual.onRectangle
        { tocLayer := some ⟨1⟩, spatref := ⟨7⟩, count := 2, fields := ["VEL"],
          velData := [1, 2], resGrid := [[0]], supportsTransparency := true }
        ⟨0, 0, 8, 2⟩).1 := by
  refine ⟨rfl, by decide, by decide⟩

/-- Claim C2 as amended: the selection is cleared only at the very end of a
fully successful invocation; the zero-match and fewer-than-3-scatterers
early exits return without clearing.  This theorem proves the surviving
half: on the residual path with at least 3 matches, and on the average path
with a nonzero count and a VEL field, the final effect of the invocation is
the clear-selection call on the layer. -/
theorem C2_amended_clear_selection_on_success (env : Env) (rect : Extent) (l : Layer)
    (hl : env.tocLayer = some l) :
    (3 ≤ env.count →
      ((SubsidenceResidual.onRectangle env rect).1).getLast?
        = some (Effect.clearSelection l)) ∧
    (env.count ≠ 0 → "VEL" ∈ env.fields →
      ((AverageDisplacementVelocity.onRectangle env rect).1).getLast?
        = some (Effect.clearSelection l)) := by
  constructor
  · intro h3
    obtain ⟨s, hs⟩ := selectSqueeSARData_pos env rect l (by omega)
    simp only [SubsidenceResidual.onRectangle, SubsidenceResidual.searchExtent,
      verifySqueeSAR_some env l hl, tryAssignOrReturn, hs]
    rw [if_neg (by omega : ¬ env.count < 3)]
    simp
  · intro h0 hVEL
    obtain ⟨s, hs⟩ := selectSqueeSARData_pos env rect l h0
    simp only [AverageDisplacementVelocity.onRectangle,
      verifySqueeSAR_some env l hl, tryAssignOrReturn, hs, pyBind,
      avevelEvaluate, if_pos hVEL]
    simp

/-- Witness for the amended C2 theorem at a concrete successful residual and
average invocation. -/
theorem C2_amended_witness :
    (3 ≤ 4 ∧
      ((SubsidenceResidual.onRectangle
        { tocLayer := some ⟨1⟩, spatref := ⟨7⟩, count := 4, fields := ["VEL"],
          velData := [1, 2, 3, 4], resGrid := [[0, 0], [0, 0]],
          supportsTransparency := true } ⟨0, 0, 8, 2⟩).1).getLast?
        = some (Effect.clearSelection ⟨1⟩)) ∧
    ((AverageDisplacementVelocity.onRectangle
        { tocLayer := some ⟨1⟩, spatref := ⟨7⟩, count := 4, fields := ["VEL"],
          velData := [1, 2, 3, 4], resGrid := [[0, 0], [0, 0]],
          supportsTransparency := true } ⟨0, 0, 8, 2⟩).1).getLast?
      = some (Effect.clearSelection ⟨1⟩) :=
  ⟨⟨by decide,
    (C2_amended_clear_selection_on_success _ _ _ rfl).1 (by decide)⟩,
   (C2_amended_clear_selection_on_success _ _ _ rfl).2 (by decide) (by decide)⟩

/-- Shape of a zero-match `selectSqueeSARData` run: the location selection
effect then the warning box, with the propagating warning. -/
theorem selectSqueeSARData_zero (env : Env) (extent : Extent) (layer : Layer)
    (h : env.count = 0) :
    selectSqueeSARData env extent layer =
      ([Effect.selectByLocation layer "WITHIN" ⟨extentRing extent, env.spatref⟩ 0
          "NEW_SELECTION",
        Effect.messageBox "No features were available within the selection boundaries"
          "Warning"],
       Except.error (PyExc.userWarning "No features!")) := by
  have h0 : Nat.repr env.count = "0" := by rw [h]; rfl
  simp [selectSqueeSARData, h0]

/-- Shape of a fully successful residual invocation: the location selection,
the printed status line, the coordinate-system assignment, the raster saved
as "subsidence" with the cell sizes the code computes from `np.shape(res)`,
the layer added on top, and the final clear-selection call. -/
theorem subsidence_success_shape (env : Env) (rect : Extent) (l : Layer)
    (hl : env.tocLayer = some l) (h3 : 3 ≤ env.count) :
    ∃ s, SubsidenceResidual.onRectangle env rect =
      ([Effect.selectByLocation l "WITHIN" ⟨extentRing rect, env.spatref⟩ 0
          "NEW_SELECTION",
        Effect.printed s,
        Effect.setOutputCoordinateSystem env.spatref,
        Effect.saveRaster "subsidence" rect.lowerLeft
          (rect.width / ((npShape env.resGrid).1 : ℚ))
          (rect.height / ((npShape env.resGrid).2 : ℚ)),
        Effect.addLayerToMap "subsidence" "TOP"
          (if env.supportsTransparency then some 25 else none),
        Effect.clearSelection l],
       Except.ok ()) := by
  obtain ⟨s, hs⟩ := selectSqueeSARData_pos env rect l (by omega)
  refine ⟨s, ?_⟩
  simp only [SubsidenceResidual.onRectangle, SubsidenceResidual.searchExtent,
    verifySqueeSAR_some env l hl, tryAssignOrReturn, hs, subresEvaluate]
  rw [if_neg (by omega : ¬ env.count < 3)]
  simp

/-- Claim C3: for every selection whose underlying dataset lacks a VEL field
name, the average-velocity estimator pops the explicit missing-field error
box and never produces (or defaults) an average: its result is the
propagating field error raised when the structured array is indexed with the
absent field, never a normal value. -/
theorem C3_missing_vel_field_no_average (env : Env) (layer : Layer)
    (h : "VEL" ∉ env.fields) :
    Effect.messageBox "Could not find the field VEL in the data." "Error"
      ∈ (avevelEvaluate env layer).1 ∧
    (avevelEvaluate env layer).2 = Except.error (PyExc.numpyFieldError "VEL") ∧
    ∀ v, (avevelEvaluate env layer).2 ≠ Except.ok v := by
  simp [avevelEvaluate, h]

/-- Witness for C3 on a dataset whose fields are HEIGHT and COHERENCE
only. -/
theorem C3_witness :
    Effect.messageBox "Could not find the field VEL in the data." "Error"
      ∈ (avevelEvaluate
        { tocLayer := some ⟨1⟩, spatref := ⟨7⟩, count := 5,
          fields := ["HEIGHT", "COHERENCE"], velData := [],
          resGrid := [[0]], supportsTransparency := true } ⟨1⟩).1 ∧
    (avevelEvaluate
        { tocLayer := some ⟨1⟩, spatref := ⟨7⟩, count := 5,
          fields := ["HEIGHT", "COHERENCE"], velData := [],
          resGrid := [[0]], supportsTransparency := true } ⟨1⟩).2
      = Except.error (PyExc.numpyFieldError "VEL") ∧
    ∀ v, (avevelEvaluate
        { tocLayer := some ⟨1⟩, spatref := ⟨7⟩, count := 5,
          fields := ["HEIGHT", "COHERENCE"], velData := [],
          resGrid := [[0]], supportsTransparency := true } ⟨1⟩).2
      ≠ Except.ok v :=
  C3_missing_vel_field_no_average _ _ (by decide)

/-- Claim C4: the claim says the cell sizes passed to the raster output
satisfy cell_width = extent.width / cols and cell_height = extent.height /
rows.  The code destructures `np.shape(res)` as `(x_len, y_len)`, so for a
rows-by-cols grid it passes cell_width = width / rows and cell_height =
height / cols — the dimensions are swapped whenever rows differ from cols.
Failing input: a 2-row, 4-column residual grid over an extent of width 8 and
height 2; the invocation saves the raster with cell sizes (4, 1/2) where the
claimed invariant requires (width / cols, height / rows) = (2, 1). -/
theorem C4_cell_sizes_use_swapped_dimensions :
    npShape [[0, 0, 0, 0], [0, 0, 0, 0]] = (2, 4) ∧
    Extent.width ⟨0, 0, 8, 2⟩ = 8 ∧ Extent.height ⟨0, 0, 8, 2⟩ = 2 ∧
    Effect.saveRaster "subsidence" (0, 0) 4 (1/2)
      ∈ (SubsidenceResidual.onRectangle
        { tocLayer := some ⟨1⟩, spatref := ⟨7⟩, count := 5, fields := ["VEL"],
          velData := [1, 2, 3, 4, 5], resGrid := [[0, 0, 0, 0], [0, 0, 0, 0]],
          supportsTransparency := true } ⟨0, 0, 8, 2⟩).1 ∧
    (4 : ℚ) ≠ 8 / 4 ∧ (1/2 : ℚ) ≠ 2 / 2 := by
  obtain ⟨s, hs⟩ := subsidence_success_shape
    { tocLayer := some ⟨1⟩, spatref := ⟨7⟩, count := 5, fields := ["VEL"],
      velData := [1, 2, 3, 4, 5], resGrid := [[0, 0, 0, 0], [0, 0, 0, 0]],
      supportsTransparency := true } ⟨0, 0, 8, 2⟩ ⟨1⟩ rfl (by norm_num)
  refine ⟨rfl, by norm_num [Extent.width], by norm_num [Extent.height], ?_,
    by norm_num, by norm_num⟩
  rw [hs]
  simp only [List.mem_cons]
  refine Or.inr (Or.inr (Or.inr (Or.inl ?_)))
  norm_num [Extent.lowerLeft, Extent.width, Extent.height, npShape]

/-- Claim C5: the claim says the scatterer set handed to the trend fit is
selected from a search neighborhood strictly larger than the user-drawn
extent.  Counterexample: the extent the residual tool uses for its
selection is the drawn rectangle itself (`extent = rectangle_geometry`; the
sigma-margin extension exists only as a TODO comment), so the neighborhood
is not strictly larger, and the location-selection polygon recorded in a
concrete run is the ring of the drawn rectangle. -/
theorem C5_counterexample_no_margin_extension :
    SubsidenceResidual.searchExtent ⟨0, 0, 8, 2⟩ = ⟨0, 0, 8, 2⟩ ∧
    ¬ Extent.strictlyLarger (SubsidenceResidual.searchExtent ⟨0, 0, 8, 2⟩)
        ⟨0, 0, 8, 2⟩ ∧
    Effect.selectByLocation ⟨1⟩ "WITHIN" ⟨extentRing ⟨0, 0, 8, 2⟩, ⟨7⟩⟩ 0
        "NEW_SELECTION"
      ∈ (SubsidenceResidual.onRectangle
        { tocLayer := some ⟨1⟩, spatref := ⟨7⟩, count := 2, fields := ["VEL"],
          velData := [1, 2], resGrid := [[0]], supportsTransparency := true }
        ⟨0, 0, 8, 2⟩).1 := by
  refine ⟨rfl, by decide, by decide⟩

/-- Claim C5 as amended: the scatterer set handed to the trend fit is
selected from exactly the user-drawn extent — the search extent is the drawn
rectangle unchanged, and whenever a layer is selected the invocation issues
its location selection with the polygon ring built from the drawn rectangle
itself. -/
theorem C5_amended_selection_uses_drawn_extent (env : Env) (rect : Extent)
    (l : Layer) (hl : env.tocLayer = some l) :
    SubsidenceResidual.searchExtent rect = rect ∧
    Effect.selectByLocation l "WITHIN" ⟨extentRing rect, env.spatref⟩ 0
        "NEW_SELECTION"
      ∈ (SubsidenceResidual.onRectangle env rect).1 := by
  refine ⟨rfl, ?_⟩
  by_cases h0 : env.count = 0
  · simp [SubsidenceResidual.onRectangle, SubsidenceResidual.searchExtent,
      verifySqueeSAR_some env l hl, tryAssignOrReturn,
      selectSqueeSARData_zero env rect l h0, stringHandlerMatches]
  · obtain ⟨s, hs⟩ := selectSqueeSARData_pos env rect l h0
    by_cases h3 : env.count < 3 <;>
      simp [SubsidenceResidual.onRectangle, SubsidenceResidual.searchExtent,
        verifySqueeSAR_some env l hl, tryAssignOrReturn, hs, h3]

/-- Witness for the amended C5 theorem at a concrete invocation. -/
theorem C5_amended_witness :
    SubsidenceResidual.searchExtent ⟨0, 0, 8, 2⟩ = ⟨0, 0, 8, 2⟩ ∧
    Effect.selectByLocation ⟨1⟩ "WITHIN" ⟨extentRing ⟨0, 0, 8, 2⟩, ⟨7⟩⟩ 0
        "NEW_SELECTION"
      ∈ (SubsidenceResidual.onRectangle
        { tocLayer := some ⟨1⟩, spatref := ⟨7⟩, count := 2, fields := ["VEL"],
          velData := [1, 2], resGrid := [[0]], supportsTransparency := false }
        ⟨0, 0, 8, 2⟩).1 :=
  C5_amended_selection_uses_drawn_extent _ _ _ rfl

/-- Claim C6: the claim says the spatial-selection operation has no
intrinsic failure and returns an empty selection (count 0) as a valid,
non-erroneous result, leaving the zero-match decision to the caller.
Counterexample: on a zero-match query `selectSqueeSARData` raises
`UserWarning("No features!")` after popping a warning box, and never
returns. -/
theorem C6_counterexample_zero_match_raises :
    (selectSqueeSARData
        { tocLayer := some ⟨1⟩, spatref := ⟨7⟩, count := 0, fields := ["VEL"],
          velData := [], resGrid := [[0]], supportsTransparency := true }
        ⟨0, 0, 8, 2⟩ ⟨1⟩).2
      = Except.error (PyExc.userWarning "No features!") := rfl

/-- Claim C6 as amended: a zero-match query is treated as a failure inside
`selectSqueeSARData` itself — it pops the warning box and raises
`UserWarning("No features!")`; the zero-match decision is not left to the
caller, and an empty selection is never returned. -/
theorem C6_amended_zero_match_raises (env : Env) (extent : Extent) (layer : Layer)
    (h : env.count = 0) :
    selectSqueeSARData env extent layer =
      ([Effect.selectByLocation layer "WITHIN" ⟨extentRing extent, env.spatref⟩ 0
          "NEW_SELECTION",
        Effect.messageBox "No features were available within the selection boundaries"
          "Warning"],
       Except.error (PyExc.userWarning "No features!")) :=
  selectSqueeSARData_zero env extent layer h

/-- Witness for the amended C6 theorem at a concrete zero-match query. -/
theorem C6_amended_witness :
    selectSqueeSARData
        { tocLayer := some ⟨1⟩, spatref := ⟨7⟩, count := 0, fields := ["VEL"],
          velData := [], resGrid := [[0]], supportsTransparency := true }
        ⟨0, 0, 8, 2⟩ ⟨1⟩ =
      ([Effect.selectByLocation ⟨1⟩ "WITHIN" ⟨extentRing ⟨0, 0, 8, 2⟩, ⟨7⟩⟩ 0
          "NEW_SELECTION",
        Effect.messageBox "No features were available within the selection boundaries"
          "Warning"],
       Except.error (PyExc.userWarning "No features!")) :=
  C6_amended_zero_match_raises _ _ _ rfl

/-- Claim C7: on the residual path only, an invocation whose selection holds
fewer than 3 scatterers (here a nonzero count, since a zero count already
fails inside the selection step) pops the 3-feature warning, terminates
normally, and never saves a raster; the average-velocity path imposes no
such minimum and completes its evaluation with the info box. -/
theorem C7_minimum_three_only_on_residual_path (env : Env) (rect : Extent)
    (l : Layer) (hl : env.tocLayer = some l) (h0 : env.count ≠ 0)
    (h3 : env.count < 3) :
    ((SubsidenceResidual.onRectangle env rect).2 = Except.ok () ∧
     Effect.messageBox "At least 3 features required within the selection boundaries"
        "Warning" ∈ (SubsidenceResidual.onRectangle env rect).1 ∧
     ∀ (name : String) (ll : ℚ × ℚ) (xc yc : ℚ),
       Effect.saveRaster name ll xc yc ∉ (SubsidenceResidual.onRectangle env rect).1) ∧
    ("VEL" ∈ env.fields →
      (AverageDisplacementVelocity.onRectangle env rect).2 = Except.ok () ∧
      Effect.messageBox
          (Nat.repr env.count ++ " feature(s) selected within:\n" ++
           "Lat: " ++ fmtQ rect.YMin ++ " to " ++ fmtQ rect.YMax ++ "\n" ++
           "Lon: " ++ fmtQ rect.XMin ++ " to " ++ fmtQ rect.XMax ++ "\n\n" ++
           "Average velocity: " ++ fmtAve (npAverage env.velData) ++ " mm/year")
          "Info"
        ∈ (AverageDisplacementVelocity.onRectangle env rect).1) := by
  obtain ⟨s, hs⟩ := selectSqueeSARData_pos env rect l h0
  constructor
  · refine ⟨?_, ?_, ?_⟩
    · simp [SubsidenceResidual.onRectangle, SubsidenceResidual.searchExtent,
        verifySqueeSAR_some env l hl, tryAssignOrReturn, hs, h3]
    · simp [SubsidenceResidual.onRectangle, SubsidenceResidual.searchExtent,
        verifySqueeSAR_some env l hl, tryAssignOrReturn, hs, h3]
    · intro name ll xc yc
      simp [SubsidenceResidual.onRectangle, SubsidenceResidual.searchExtent,
        verifySqueeSAR_some env l hl, tryAssignOrReturn, hs, h3]
  · intro hVEL
    constructor
    · simp [AverageDisplacementVelocity.onRectangle,
        verifySqueeSAR_some env l hl, tryAssignOrReturn, hs, pyBind,
        avevelEvaluate, hVEL]
    · simp [AverageDisplacementVelocity.onRectangle,
        verifySqueeSAR_some env l hl, tryAssignOrReturn, hs, pyBind,
        avevelEvaluate, hVEL]

/-- Witness for C7 at a concrete invocation with 2 matching scatterers. -/
theorem C7_witness :
    ((SubsidenceResidual.onRectangle
        { tocLayer := some ⟨1⟩, spatref := ⟨7⟩, count := 2, fields := ["VEL"],
          velData := [3, 5], resGrid := [[0]], supportsTransparency := true }
        ⟨0, 0, 8, 2⟩).2 = Except.ok () ∧
     Effect.messageBox "At least 3 features required within the selection boundaries"
        "Warning" ∈ (SubsidenceResidual.onRectangle
        { tocLayer := some ⟨1⟩, spatref := ⟨7⟩, count := 2, fields := ["VEL"],
          velData := [3, 5], resGrid := [[0]], supportsTransparency := true }
        ⟨0, 0, 8, 2⟩).1 ∧
     ∀ (name : String) (ll : ℚ × ℚ) (xc yc : ℚ),
       Effect.saveRaster name ll xc yc ∉ (SubsidenceResidual.onRectangle
        { tocLayer := some ⟨1⟩, spatref := ⟨7⟩, count := 2, fields := ["VEL"],
          velData := [3, 5], resGrid := [[0]], supportsTransparency := true }
        ⟨0, 0, 8, 2⟩).1) ∧
    ("VEL" ∈ ["VEL"] →
      (AverageDisplacementVelocity.onRectangle
        { tocLayer := some ⟨1⟩, spatref := ⟨7⟩, count := 2, fields := ["VEL"],
          velData := [3, 5], resGrid := [[0]], supportsTransparency := true }
        ⟨0, 0, 8, 2⟩).2 = Except.ok () ∧
      Effect.messageBox
          (Nat.repr 2 ++ " feature(s) selected within:\n" ++
           "Lat: " ++ fmtQ (0 : ℚ) ++ " to " ++ fmtQ (2 : ℚ) ++ "\n" ++
           "Lon: " ++ fmtQ (0 : ℚ) ++ " to " ++ fmtQ (8 : ℚ) ++ "\n\n" ++
           "Average velocity: " ++ fmtAve (npAverage [3, 5]) ++ " mm/year")
          "Info"
        ∈ (AverageDisplacementVelocity.onRectangle
        { tocLayer := some ⟨1⟩, spatref := ⟨7⟩, count := 2, fields := ["VEL"],
          velData := [3, 5], resGrid := [[0]], supportsTransparency := true }
        ⟨0, 0, 8, 2⟩).1) :=
  C7_minimum_three_only_on_residual_path _ _ _ rfl (by decide) (by decide)

/-- Mean of n copies of the same value is that value. -/
theorem npAverage_replicate (n : Nat) (v : ℚ) (hn : n ≠ 0) :
    npAverage (List.replicate n v) = some v := by
  obtain ⟨m, rfl⟩ : ∃ m, n = m + 1 := ⟨n - 1, by omega⟩
  have hne : ((m : ℚ) + 1) ≠ 0 := by positivity
  simp [npAverage, List.sum_replicate, nsmul_eq_mul]
  field_simp

/-- Mean of the list 1, 2, 3 is 2. -/
theorem npAverage_one_two_three : npAverage [1, 2, 3] = some 2 := by
  norm_num [npAverage]

/-- Claim C8: for every non-empty selection exposing a velocity field, the
average-velocity estimator returns the arithmetic mean of the velocities;
over n identical velocities v it returns v, and over the velocities 1, 2, 3
it returns 2. -/
theorem C8_average_is_arithmetic_mean (env : Env) (l : Layer)
    (hVEL : "VEL" ∈ env.fields) :
    (env.velData ≠ [] →
      (avevelEvaluate env l).2
        = Except.ok (some (env.velData.sum / (env.velData.length : ℚ)))) ∧
    (∀ (n : Nat) (v : ℚ), n ≠ 0 → env.velData = List.replicate n v →
      (avevelEvaluate env l).2 = Except.ok (some v)) ∧
    (env.velData = [1, 2, 3] →
      (avevelEvaluate env l).2 = Except.ok (some 2)) := by
  refine ⟨?_, ?_, ?_⟩
  · intro hne
    simp [avevelEvaluate, hVEL, npAverage, hne]
  · intro n v hn hdata
    simp [avevelEvaluate, hVEL, hdata, npAverage_replicate n v hn]
  · intro hdata
    simp [avevelEvaluate, hVEL, hdata, npAverage_one_two_three]

/-- Witness for C8: two identical velocities of 5 average to 5, and the
velocities 1, 2, 3 average to 2. -/
theorem C8_witness :
    (avevelEvaluate
        { tocLayer := some ⟨1⟩, spatref := ⟨7⟩, count := 2, fields := ["VEL"],
          velData := [5, 5], resGrid := [[0]], supportsTransparency := true }
        ⟨1⟩).2 = Except.ok (some 5) ∧
    (avevelEvaluate
        { tocLayer := some ⟨1⟩, spatref := ⟨7⟩, count := 3, fields := ["VEL"],
          velData := [1, 2, 3], resGrid := [[0]], supportsTransparency := true }
        ⟨1⟩).2 = Except.ok (some 2) :=
  ⟨(C8_average_is_arithmetic_mean _ ⟨1⟩ (by decide)).2.1 2 5 (by decide) rfl,
   (C8_average_is_arithmetic_mean _ ⟨1⟩ (by decide)).2.2 rfl⟩

/-- Claim C9: `selectSqueeSARData` raises exactly when the reported count is
zero; whenever it returns normally the returned feature count is the
reported count, at least 1. -/
theorem C9_return_raise_partition_on_zero (env : Env) (extent : Extent)
    (layer : Layer) :
    (env.count = 0 →
      (selectSqueeSARData env extent layer).2
        = Except.error (PyExc.userWarning "No features!")) ∧
    (env.count ≠ 0 →
      (selectSqueeSARData env extent layer).2 = Except.ok (env.count, env.spatref) ∧
      1 ≤ env.count) ∧
    (∀ (n : Nat) (sr : SpatialReference),
      (selectSqueeSARData env extent layer).2 = Except.ok (n, sr) → 1 ≤ n) := by
  refine ⟨fun h => by rw [selectSqueeSARData_zero env extent layer h],
    fun h => ?_, ?_⟩
  · obtain ⟨s, hs⟩ := selectSqueeSARData_pos env extent layer h
    exact ⟨by rw [hs], by omega⟩
  · intro n sr hok
    by_cases h : env.count = 0
    · rw [selectSqueeSARData_zero env extent layer h] at hok
      simp at hok
    · obtain ⟨s, hs⟩ := selectSqueeSARData_pos env extent layer h
      rw [hs] at hok
      simp at hok
      obtain ⟨h1, h2⟩ := hok
      omega

/-- Witness for C9 at a concrete query reporting 5 selected features. -/
theorem C9_witness :
    (selectSqueeSARData
        { tocLayer := some ⟨1⟩, spatref := ⟨7⟩, count := 5, fields := ["VEL"],
          velData := [], resGrid := [[0]], supportsTransparency := true }
        ⟨0, 0, 8, 2⟩ ⟨1⟩).2 = Except.ok (5, ⟨7⟩) ∧ 1 ≤ 5 :=
  (C9_return_raise_partition_on_zero _ ⟨0, 0, 8, 2⟩ ⟨1⟩).2.1 (by decide)

/-- Claim C10: dataset overwriting is enabled at tool initialization, and
every raster an invocation saves — and every layer it adds to the map — is
named by the fixed literal "subsidence", independent of the environment and
of the drawn rectangle: the output name is not configurable per
invocation. -/
theorem C10_fixed_output_name_and_overwrite :
    SubsidenceResidual.init.overwriteOutput = true ∧
    (∀ (env : Env) (rect : Extent) (name : String) (ll : ℚ × ℚ) (xc yc : ℚ),
      Effect.saveRaster name ll xc yc ∈ (SubsidenceResidual.onRectangle env rect).1 →
      name = "subsidence") ∧
    (∀ (env : Env) (rect : Extent) (name pos : String) (tr : Option Nat),
      Effect.addLayerToMap name pos tr ∈ (SubsidenceResidual.onRectangle env rect).1 →
      name = "subsidence") := by
  refine ⟨rfl, ?_, ?_⟩
  all_goals
    intro env rect name
    intros
    rename_i hmem
    rcases henv : env.tocLayer with _ | l
    · simp [SubsidenceResidual.onRectangle, tryAssignOrReturn, verifySqueeSAR,
        henv, stringHandlerMatches] at hmem
    · by_cases h0 : env.count = 0
      · simp [SubsidenceResidual.onRectangle, SubsidenceResidual.searchExtent,
          tryAssignOrReturn, verifySqueeSAR_some env l henv,
          selectSqueeSARData_zero env rect l h0, stringHandlerMatches] at hmem
      · by_cases h3 : env.count < 3
        · obtain ⟨s, hs⟩ := selectSqueeSARData_pos env rect l h0
          simp [SubsidenceResidual.onRectangle, SubsidenceResidual.searchExtent,
            tryAssignOrReturn, verifySqueeSAR_some env l henv, hs, h3] at hmem
        · obtain ⟨s, hsucc⟩ := subsidence_success_shape env rect l henv (by omega)
          rw [hsucc] at hmem
          simp at hmem
          exact hmem.1

/-- Witness for C10: a concrete successful invocation whose save effect is
in the log, with the name equal to "subsidence" obtained from the claim
theorem itself. -/
theorem C10_witness :
    Effect.saveRaster "subsidence" (Extent.lowerLeft ⟨0, 0, 8, 2⟩)
        (Extent.width ⟨0, 0, 8, 2⟩ / ((npShape [[(0 : ℚ), 0], [0, 0]]).1 : ℚ))
        (Extent.height ⟨0, 0, 8, 2⟩ / ((npShape [[(0 : ℚ), 0], [0, 0]]).2 : ℚ))
      ∈ (SubsidenceResidual.onRectangle
        { tocLayer := some ⟨1⟩, spatref := ⟨7⟩, count := 3, fields := ["VEL"],
          velData := [1, 2, 3], resGrid := [[0, 0], [0, 0]],
          supportsTransparency := true } ⟨0, 0, 8, 2⟩).1 ∧
    "subsidence" = "subsidence" := by
  have hmem : Effect.saveRaster "subsidence" (Extent.lowerLeft ⟨0, 0, 8, 2⟩)
      (Extent.width ⟨0, 0, 8, 2⟩ / ((npShape [[(0 : ℚ), 0], [0, 0]]).1 : ℚ))
      (Extent.height ⟨0, 0, 8, 2⟩ / ((npShape [[(0 : ℚ), 0], [0, 0]]).2 : ℚ))
      ∈ (SubsidenceResidual.onRectangle
        { tocLayer := some ⟨1⟩, spatref := ⟨7⟩, count := 3, fields := ["VEL"],
          velData := [1, 2, 3], resGrid := [[0, 0], [0, 0]],
          supportsTransparency := true } ⟨0, 0, 8, 2⟩).1 := by
    obtain ⟨s, hsucc⟩ := subsidence_success_shape
      { tocLayer := some ⟨1⟩, spatref := ⟨7⟩, count := 3, fields := ["VEL"],
        velData := [1, 2, 3], resGrid := [[0, 0], [0, 0]],
        supportsTransparency := true } ⟨0, 0, 8, 2⟩ ⟨1⟩ rfl (by norm_num)
    rw [hsucc]
    simp
  exact ⟨hmem,
    (C10_fixed_output_name_and_overwrite).2.1 _ _ "subsidence" _ _ _ hmem⟩
